import Mathlib

/-!
Verification of the storage REST server core (cmd/storage-rest-server.go):
the keep-alive / block-streaming framing protocol, the disk-identity and
authentication gateway, the error classification, and the bootstrap
fatal-vs-retry policy.

Byte streams are modelled as `List Nat` (each element one byte).  Readers,
writers and channels are modelled by explicit list passing; the single
goroutine that owns a connection is modelled by the function that produces
the wire bytes in the order that goroutine writes them.
-/

namespace StorageRest

/-! ## Little-endian 32-bit helpers (encoding/binary) -/

/-- Embedding of `binary.LittleEndian.PutUint32(tmp[1:], uint32(len(block)))`:
the four little-endian bytes of `n` truncated to 32 bits. -/
def putUint32LE (n : Nat) : List Nat :=
  [n % 256, n / 256 % 256, n / 65536 % 256, n / 16777216 % 256]

/-- Embedding of `binary.LittleEndian.Uint32(tmp[:])`: decode four
little-endian bytes.  Only applied to lists of length four. -/
def leUint32 (b : List Nat) : Nat :=
  match b with
  | b0 :: b1 :: b2 :: b3 :: _ => b0 + 256 * (b1 + 256 * (b2 + 256 * b3))
  | _ => 0

theorem putUint32LE_length (n : Nat) : (putUint32LE n).length = 4 := rfl

theorem leUint32_putUint32LE (n : Nat) (h : n < 4294967296) :
    leUint32 (putUint32LE n) = n := by
  simp only [putUint32LE, leUint32]
  omega

/-! ## The client-side decoders -/

/-- Go I/O error identities relevant to the decoders:
`io.EOF` and `io.ErrUnexpectedEOF`. -/
inductive IOFault where
  | eof
  | unexpectedEOF
deriving DecidableEq

/-- Result of `waitForHTTPStream`: the Go function returns an `error`
(`nil` on success, the remote error text, an I/O error, or the
protocol-violation error for an unexpected filler byte). -/
inductive StreamOutcome where
  | success
  | ioError (e : IOFault)
  | remoteError (msg : List Nat)
  | badFiller (b : Nat)
deriving DecidableEq

/-- Shallow embedding of `waitForHTTPStream(respBody, w)`.
Input: the remaining bytes of `respBody`.  Output: the bytes written to
`w` paired with the returned error.

Each loop iteration does `io.ReadFull(respBody, tmp[:1])` (on an empty
stream that fails with `io.EOF`), then switches on the tag byte:
`0` copies the rest of the stream through (`io.CopyBuffer`, which ends
with a nil error at EOF); `1` reads the rest as the error text; `2` does
`io.ReadFull` of a 4-byte little-endian length (`io.EOF` when nothing is
available, `io.ErrUnexpectedEOF` on a short read), then copies
`io.LimitReader(respBody, length)` to `w` — the copied byte count `n` is
`min length remaining`, and `n ≠ length` yields `io.ErrUnexpectedEOF`
after the partial block was already written; `32` continues the loop;
any other byte returns the protocol-violation error. -/
def waitForHTTPStream : List Nat → List Nat × StreamOutcome
  | [] => ([], .ioError .eof)
  | b :: rest =>
    if b = 0 then
      (rest, .success)
    else if b = 1 then
      ([], .remoteError rest)
    else if b = 2 then
      if rest.length < 4 then
        ([], .ioError (if rest.length = 0 then .eof else .unexpectedEOF))
      else
        let n := leUint32 (rest.take 4)
        let payload := rest.drop 4
        let copied := payload.take n
        if copied.length ≠ n then (copied, .ioError .unexpectedEOF)
        else
          let r := waitForHTTPStream (payload.drop n)
          (copied ++ r.1, r.2)
    else if b = 32 then
      waitForHTTPStream rest
    else
      ([], .badFiller b)
termination_by l => l.length
decreasing_by
  · simp only [List.length_drop, List.length_cons]
    omega
  · simp only [List.length_cons]
    omega

/-- Result of `waitForHTTPResponse`: either the reader positioned at the
payload (modelled by the remaining bytes), or one of the error returns. -/
inductive RespOutcome where
  | payload (rest : List Nat)
  | failure (msg : List Nat)
  | ioError (e : IOFault)
  | badFiller (b : Nat)
deriving DecidableEq

/-- Shallow embedding of `waitForHTTPResponse(respBody)`: read one byte at
a time (`ReadByte` fails with `io.EOF` on an empty stream); `0` returns
the reader holding the remaining bytes, `1` reads the rest as the error
text, `32` continues, anything else is the protocol-violation error. -/
def waitForHTTPResponse : List Nat → RespOutcome
  | [] => .ioError .eof
  | b :: rest =>
    if b = 0 then .payload rest
    else if b = 1 then .failure rest
    else if b = 32 then waitForHTTPResponse rest
    else .badFiller b

/-! ### Decoder equation lemmas -/

theorem waitForHTTPStream_nil : waitForHTTPStream [] = ([], .ioError .eof) := by
  simp [waitForHTTPStream]

theorem waitForHTTPStream_zero (rest : List Nat) :
    waitForHTTPStream (0 :: rest) = (rest, .success) := by
  simp [waitForHTTPStream]

theorem waitForHTTPStream_one (rest : List Nat) :
    waitForHTTPStream (1 :: rest) = ([], .remoteError rest) := by
  simp [waitForHTTPStream]

theorem waitForHTTPStream_hb (rest : List Nat) :
    waitForHTTPStream (32 :: rest) = waitForHTTPStream rest := by
  simp [waitForHTTPStream]

theorem waitForHTTPStream_replicate_hb (m : Nat) (s : List Nat) :
    waitForHTTPStream (List.replicate m 32 ++ s) = waitForHTTPStream s := by
  induction m with
  | zero => simp
  | succ k ih =>
      rw [List.replicate_succ, List.cons_append, waitForHTTPStream_hb, ih]

theorem waitForHTTPResponse_hb (rest : List Nat) :
    waitForHTTPResponse (32 :: rest) = waitForHTTPResponse rest := by
  simp [waitForHTTPResponse]

theorem waitForHTTPResponse_replicate_hb (m : Nat) (s : List Nat) :
    waitForHTTPResponse (List.replicate m 32 ++ s) = waitForHTTPResponse s := by
  induction m with
  | zero => simp
  | succ k ih =>
      rw [List.replicate_succ, List.cons_append, waitForHTTPResponse_hb, ih]

theorem waitForHTTPResponse_skip_hbs (u v : List Nat) (hu : ∀ b ∈ u, b = 32) :
    waitForHTTPResponse (u ++ v) = waitForHTTPResponse v := by
  induction u with
  | nil => simp
  | cons a t ih =>
      have ha : a = 32 := hu a (by simp)
      subst ha
      rw [List.cons_append, waitForHTTPResponse_hb]
      exact ih (fun b hb => hu b (by simp [hb]))

theorem waitForHTTPStream_other (b : Nat) (rest : List Nat)
    (h0 : b ≠ 0) (h1 : b ≠ 1) (h2 : b ≠ 2) (h32 : b ≠ 32) :
    waitForHTTPStream (b :: rest) = ([], .badFiller b) := by
  simp [waitForHTTPStream, h0, h1, h2, h32]

/-- The reader state machine exactly as the spec words it, for the
refinement comparison of claim C2: read one tag byte (end of stream is an
I/O failure); heartbeat (32) means skip and continue; success (0) means
pass the remaining stream through unmodified; error (1) means the rest of
the stream is the failure text; data block (2) means read a 4-byte
little-endian length, then exactly that many payload bytes — fewer bytes
available than announced is a truncation failure — and loop; any other
tag byte is an immediate protocol violation. -/
def frameReaderSpec : List Nat → List Nat × StreamOutcome
  | [] => ([], .ioError .eof)
  | b :: rest =>
    if b = 32 then
      frameReaderSpec rest
    else if b = 0 then
      (rest, .success)
    else if b = 1 then
      ([], .remoteError rest)
    else if b = 2 then
      if rest.length < 4 then
        ([], .ioError (if rest.length = 0 then .eof else .unexpectedEOF))
      else
        let n := leUint32 (rest.take 4)
        let body := rest.drop 4
        if body.length < n then (body.take n, .ioError .unexpectedEOF)
        else
          let r := frameReaderSpec (body.drop n)
          (body.take n ++ r.1, r.2)
    else
      ([], .badFiller b)
termination_by l => l.length
decreasing_by
  · simp only [List.length_cons]
    omega
  · simp only [List.length_drop, List.length_cons]
    omega

/-- Claim C2: the client-side frame reader `waitForHTTPStream` behaves,
on every input byte stream, as the tag-dispatching state machine the spec
describes (heartbeat skipped, success switches to pass-through, error
consumes the rest as the message, data blocks are length-prefixed with
exact-length reads detecting truncation, unknown tags fail immediately). -/
theorem waitForHTTPStream_state_machine (s : List Nat) :
    waitForHTTPStream s = frameReaderSpec s := by
  have main : ∀ (k : Nat) (t : List Nat), t.length ≤ k →
      waitForHTTPStream t = frameReaderSpec t := by
    intro k
    induction k with
    | zero =>
        intro t ht
        have hnil : t = [] := List.eq_nil_of_length_eq_zero (Nat.le_zero.mp ht)
        subst hnil
        simp [waitForHTTPStream, frameReaderSpec]
    | succ k ih =>
        intro t ht
        match t with
        | [] => simp [waitForHTTPStream, frameReaderSpec]
        | b :: rest =>
          have hr : rest.length ≤ k := by
            simp only [List.length_cons] at ht
            omega
          by_cases h0 : b = 0
          · subst h0
            simp [waitForHTTPStream, frameReaderSpec]
          by_cases h1 : b = 1
          · subst h1
            simp [waitForHTTPStream, frameReaderSpec]
          by_cases h32 : b = 32
          · subst h32
            rw [waitForHTTPStream_hb,
              show frameReaderSpec (32 :: rest) = frameReaderSpec rest by
                simp [frameReaderSpec]]
            exact ih rest hr
          by_cases h2 : b = 2
          · subst h2
            simp only [waitForHTTPStream, frameReaderSpec]
            norm_num
            by_cases h4 : rest.length < 4
            · simp [h4]
            · simp only [if_neg h4]
              rw [ih (List.drop (4 + leUint32 (List.take 4 rest)) rest) (by
                simp only [List.length_drop]
                omega)]
          · rw [waitForHTTPStream_other b rest h0 h1 h2 h32]
            simp [frameReaderSpec, h0, h1, h2, h32]
  exact main s.length s le_rfl

/-- Claim C9 counterexample: the stream `[2,1,0,0,0,65,0]` (one data block
`[65]`, then the success terminator) decodes to the payload `[65]`; but
inserting a single heartbeat byte 32 right after the data tag — a point
before the terminal byte — changes the decoded result to a truncation
failure, because the heartbeat byte is consumed as part of the length
prefix. -/
theorem heartbeat_insertion_changes_stream_result :
    waitForHTTPStream [2, 1, 0, 0, 0, 65, 0] = ([65], .success) ∧
    waitForHTTPStream [2, 32, 1, 0, 0, 65, 0] = ([65, 0], .ioError .unexpectedEOF) ∧
    (([65, 0], StreamOutcome.ioError .unexpectedEOF) : List Nat × StreamOutcome) ≠
      ([65], .success) := by
  refine ⟨?_, ?_, by decide⟩
  · simp +decide [waitForHTTPStream, leUint32]
  · simp +decide [waitForHTTPStream, leUint32]

/-- Claim C9 amended: heartbeat insertion is result-preserving exactly at
the points where the decoder is about to read a tag byte.  For
`waitForHTTPResponse` every point before the terminal byte is such a
point (all bytes before the terminal of an accepted stream are
heartbeats), so inserting heartbeats anywhere before the terminal
preserves the result; for `waitForHTTPStream` insertion at a frame
boundary preserves the result, but insertion inside a frame may not. -/
theorem heartbeat_insertion_amended (u v : List Nat) (m : Nat)
    (hu : ∀ b ∈ u, b = 32) :
    waitForHTTPResponse (u ++ (List.replicate m 32 ++ v)) =
      waitForHTTPResponse (u ++ v) ∧
    waitForHTTPStream (List.replicate m 32 ++ v) = waitForHTTPStream v := by
  constructor
  · rw [waitForHTTPResponse_skip_hbs u _ hu, waitForHTTPResponse_skip_hbs u v hu,
      waitForHTTPResponse_replicate_hb]
  · exact waitForHTTPStream_replicate_hb m v

/-- Witness for the amended C9 at a concrete input. -/
theorem heartbeat_insertion_amended_witness :
    waitForHTTPResponse ([32] ++ (List.replicate 2 32 ++ [0, 5])) =
      waitForHTTPResponse ([32] ++ [0, 5]) ∧
    waitForHTTPStream (List.replicate 2 32 ++ [0, 5]) = waitForHTTPStream [0, 5] :=
  heartbeat_insertion_amended [32] [0, 5] 2 (by decide)

/-! ## The server-side block-streaming writer (`streamHTTPResponse`) -/

/-- Wire bytes produced for one submitted block: `httpStreamResponse.Write`
ignores zero-length blocks (they never reach the block channel); for a
non-empty block the connection goroutine writes the tag byte `2`, the
4-byte little-endian length `uint32(len(block))`, then the block bytes. -/
def blockFrame (b : List Nat) : List Nat :=
  if b.length = 0 then [] else 2 :: (putUint32LE b.length ++ b)

/-- The full wire output of a `streamHTTPResponse` session: the single
connection-owning goroutine serializes, in order, any heartbeat bytes the
ticker fires before each block frame (`items` pairs each submitted block
with the number of heartbeats preceding its frame), then `hEnd` final
heartbeats, then — for a session closed successfully via
`CloseWithError(nil)` — the success terminator byte `0`. -/
def streamWire : List (Nat × List Nat) → Nat → List Nat
  | [], hEnd => List.replicate hEnd 32 ++ [0]
  | (h, b) :: items, hEnd =>
      List.replicate h 32 ++ (blockFrame b ++ streamWire items hEnd)

theorem waitForHTTPStream_frame (b s : List Nat) (hlen : b.length < 4294967296) :
    waitForHTTPStream (2 :: (putUint32LE b.length ++ (b ++ s))) =
      (b ++ (waitForHTTPStream s).1, (waitForHTTPStream s).2) := by
  have h4 : (putUint32LE b.length).length = 4 := putUint32LE_length _
  have htake : (putUint32LE b.length ++ (b ++ s)).take 4 = putUint32LE b.length :=
    List.take_left' h4
  have hdrop : (putUint32LE b.length ++ (b ++ s)).drop 4 = b ++ s :=
    List.drop_left' h4
  have hlen2 : ¬ (putUint32LE b.length ++ (b ++ s)).length < 4 := by
    simp [List.length_append, h4]
  have hround : leUint32 (putUint32LE b.length) = b.length :=
    leUint32_putUint32LE _ hlen
  simp only [waitForHTTPStream, hlen2, htake, hdrop, hround, if_false,
    List.take_left, List.drop_left, List.length_take]
  norm_num

/-- Claim C1: for every finite sequence of blocks submitted through
`streamHTTPResponse` / `httpStreamResponse.Write` and closed successfully,
`waitForHTTPStream` writes to its output exactly the concatenation of the
submitted blocks, in submission order, regardless of how many heartbeats
the writer interleaved between frames. -/
theorem streamHTTPResponse_roundtrip (items : List (Nat × List Nat)) (hEnd : Nat)
    (hsz : ∀ p ∈ items, p.2.length < 4294967296) :
    waitForHTTPStream (streamWire items hEnd) =
      ((items.map Prod.snd).flatten, .success) := by
  induction items with
  | nil =>
      simp [streamWire, waitForHTTPStream_replicate_hb, waitForHTTPStream_zero]
  | cons p items ih =>
      obtain ⟨h, b⟩ := p
      have hb : b.length < 4294967296 := hsz (h, b) (by simp)
      have ihs : ∀ q ∈ items, q.2.length < 4294967296 :=
        fun q hq => hsz q (by simp [hq])
      by_cases hz : b.length = 0
      · have hbnil : b = [] := List.length_eq_zero.mp hz
        subst hbnil
        simp [streamWire, blockFrame, waitForHTTPStream_replicate_hb, ih ihs]
      · simp only [streamWire, blockFrame, if_neg hz, waitForHTTPStream_replicate_hb]
        rw [show (2 :: (putUint32LE b.length ++ b)) ++ streamWire items hEnd =
              2 :: (putUint32LE b.length ++ (b ++ streamWire items hEnd)) by
            simp [List.append_assoc]]
        rw [waitForHTTPStream_frame b _ hb, ih ihs]
        simp

/-- Witness for C1 at a concrete input: three blocks (one of them empty,
which the writer skips) with heartbeats interleaved decode back to the
exact concatenation. -/
theorem streamHTTPResponse_roundtrip_witness :
    waitForHTTPStream (streamWire [(1, [7]), (0, [8, 9]), (2, [])] 3) =
      ([7, 8, 9], .success) := by
  have h := streamHTTPResponse_roundtrip [(1, [7]), (0, [8, 9]), (2, [])] 3 (by decide)
  simpa using h

/-! ## Error identities and classification (`writeErrorResponse`) -/

/-- The sentinel error identities this file's code compares against.
In Go each is a distinct `errors.New` value declared across the
repository; `generic s` stands for any other error with text `s`. -/
inductive BaseErr where
  | diskStale
  | fileNotFound
  | fileVersionNotFound
  | diskNotFound
  | invalidAccessKeyID
  | accessKeyDisabled
  | noAuthToken
  | malformedAuth
  | authentication
  | skewedAuthTime
  | ctxCanceled
  | ctxDeadlineExceeded
  | unsupportedDisk
  | diskAccessDenied
  | fileAccessDenied
  | diskNotDir
  | faultyDisk
  | xlBackend
  | diskFull
  | generic (text : String)
deriving DecidableEq

/-- An error as it reaches `writeErrorResponse`: the root sentinel
condition, possibly wrapped in layers of added context
(`fmt.Errorf` with a wrap verb and the like). -/
inductive WrappedErr where
  | base (e : BaseErr)
  | wrap (inner : WrappedErr)
deriving DecidableEq

/-- Modelled from the spec: the helper `unwrapAll`, which is defined
outside this file, strips every layer of added context from an error —
"Classification first unwraps nested causes so that added context from
intermediate layers never defeats matching against the root condition." -/
def unwrapAll : WrappedErr → BaseErr
  | .base e => e
  | .wrap inner => unwrapAll inner

/-- Embedding of `storageRESTServer.writeErrorResponse`: the HTTP status
written for an error.  The Go switch on the unwrapped error maps
`errDiskStale` to 412, `errFileNotFound` and `errFileVersionNotFound` to
404, the six authentication causes to 401, context cancellation and
deadline to 499, and everything else — including `errDiskNotFound`,
which the switch does not list — to the default 403. -/
def writeErrorResponseStatus (err : WrappedErr) : Nat :=
  match unwrapAll err with
  | .diskStale => 412
  | .fileNotFound => 404
  | .fileVersionNotFound => 404
  | .invalidAccessKeyID => 401
  | .accessKeyDisabled => 401
  | .noAuthToken => 401
  | .malformedAuth => 401
  | .authentication => 401
  | .skewedAuthTime => 401
  | .ctxCanceled => 499
  | .ctxDeadlineExceeded => 499
  | _ => 403

/-- Iterated context wrapping. -/
def wrapN : Nat → WrappedErr → WrappedErr
  | 0, e => e
  | n + 1, e => .wrap (wrapN n e)

theorem unwrapAll_wrapN (n : Nat) (e : WrappedErr) :
    unwrapAll (wrapN n e) = unwrapAll e := by
  induction n with
  | zero => rfl
  | succ k ih => simp [wrapN, unwrapAll, ih]

/-- Claim C4 counterexample: the claim says disk-not-found maps to 404,
but `writeErrorResponse` does not list `errDiskNotFound` in its 404 case,
so it falls through to the default 403. -/
theorem writeErrorResponse_diskNotFound_403 :
    writeErrorResponseStatus (.base .diskNotFound) = 403 ∧ (403 : Nat) ≠ 404 :=
  ⟨rfl, by decide⟩

/-- The status table as the amended claim states it: file not found and
file-version not found map to 404 (disk not found does NOT — it takes the
default); stale disk identity maps to 412; each authentication sub-cause
maps to 401; context cancellation or deadline maps to 499; every other
error, disk-not-found included, maps to 403. -/
def specStatusAmended : BaseErr → Nat
  | .fileNotFound => 404
  | .fileVersionNotFound => 404
  | .diskStale => 412
  | .invalidAccessKeyID => 401
  | .accessKeyDisabled => 401
  | .noAuthToken => 401
  | .malformedAuth => 401
  | .authentication => 401
  | .skewedAuthTime => 401
  | .ctxCanceled => 499
  | .ctxDeadlineExceeded => 499
  | _ => 403

/-- Claim C4 amended: every error, wrapped in any number of context
layers, is classified by its unwrapped root condition according to the
amended status table (disk-not-found falling to the 403 default rather
than 404). -/
theorem writeErrorResponse_status_amended (n : Nat) (b : BaseErr) :
    writeErrorResponseStatus (wrapN n (.base b)) = specStatusAmended b := by
  simp only [writeErrorResponseStatus, unwrapAll_wrapN]
  cases b <;> rfl

/-! ## Authentication (`storageServerRequestValidate`) -/

/-- Skew time between minio peers, in nanoseconds (`15 * time.Minute`). -/
def DefaultSkewTime : Int := 15 * 60 * 1000000000

/-- Outcome of `jwtreq.AuthorizationHeaderExtractor.ExtractToken`:
success, the specific `ErrNoTokenInRequest` failure, or any other
extraction failure. -/
inductive ExtractResult where
  | ok
  | errNoToken
  | errOther
deriving DecidableEq

/-- The authentication-relevant content of an inbound request, with the
external JWT library's verdicts made explicit: `signatureValid` is
whether `xjwt.ParseWithStandardClaims` succeeds against the node's
secret key, the `claim*` fields are the parsed standard claims,
`requestTime` is the parsed `X-Minio-Time` header (`none` when
`time.Parse` fails), in nanoseconds. -/
structure StorageAuthRequest where
  tokenExtract : ExtractResult
  signatureValid : Bool
  claimAccessKey : String
  claimSubject : String
  claimAudience : String
  rawQuery : String
  requestTime : Option Int
deriving DecidableEq

/-- Embedding of `storageServerRequestValidate(r)`, parameterized by the
node's active credential access key and the current UTC time in
nanoseconds.  Mirrors the Go early returns: extraction failure gives
`errNoAuthToken` or `errMalformedAuth`; a failed signature check gives
`errAuthentication`; a claims access-key/subject ("owner") mismatch gives
`errAuthentication`; an audience that differs from the raw query string
gives `errAuthentication`; an unparsable timestamp gives
`errMalformedAuth`; an absolute time delta above `DefaultSkewTime` gives
`errSkewedAuthTime`; otherwise the request is accepted. -/
def storageServerRequestValidate (credAccessKey : String) (utcNow : Int)
    (r : StorageAuthRequest) : Option BaseErr :=
  match r.tokenExtract with
  | .errNoToken => some .noAuthToken
  | .errOther => some .malformedAuth
  | .ok =>
    if r.signatureValid = false then some .authentication
    else if r.claimAccessKey = credAccessKey ∨ r.claimSubject = credAccessKey then
      if r.claimAudience ≠ r.rawQuery then some .authentication
      else
        match r.requestTime with
        | none => some .malformedAuth
        | some t =>
          let delta := t - utcNow
          let absDelta := if delta < 0 then -delta else delta
          if absDelta > DefaultSkewTime then some .skewedAuthTime else none
    else some .authentication

theorem validate_time_only (credAccessKey : String) (utcNow t : Int)
    (r : StorageAuthRequest) (hx : r.tokenExtract = .ok)
    (hs : r.signatureValid = true) (ho : r.claimAccessKey = credAccessKey)
    (ha : r.claimAudience = r.rawQuery) (htime : r.requestTime = some t) :
    storageServerRequestValidate credAccessKey utcNow r =
      if (if t - utcNow < 0 then -(t - utcNow) else t - utcNow) > DefaultSkewTime
      then some .skewedAuthTime else none := by
  simp [storageServerRequestValidate, hx, hs, ho, ha, htime]

/-- Claim C5: a request timestamped exactly 15 minutes from now (either
direction) is accepted; one timestamped 15 minutes plus one second from
now (either direction) is rejected with the skewed-time error. -/
theorem skew_boundary (credAccessKey : String) (utcNow : Int)
    (r : StorageAuthRequest) (hx : r.tokenExtract = .ok)
    (hs : r.signatureValid = true) (ho : r.claimAccessKey = credAccessKey)
    (ha : r.claimAudience = r.rawQuery) :
    storageServerRequestValidate credAccessKey utcNow
        { r with requestTime := some (utcNow + DefaultSkewTime) } = none ∧
    storageServerRequestValidate credAccessKey utcNow
        { r with requestTime := some (utcNow - DefaultSkewTime) } = none ∧
    storageServerRequestValidate credAccessKey utcNow
        { r with requestTime := some (utcNow + DefaultSkewTime + 1000000000) } =
      some .skewedAuthTime ∧
    storageServerRequestValidate credAccessKey utcNow
        { r with requestTime := some (utcNow - DefaultSkewTime - 1000000000) } =
      some .skewedAuthTime := by
  refine ⟨?_, ?_, ?_, ?_⟩
  · rw [validate_time_only credAccessKey utcNow (utcNow + DefaultSkewTime)
        { r with requestTime := some (utcNow + DefaultSkewTime) } hx hs ho ha rfl]
    simp only [DefaultSkewTime]
    split_ifs <;> first | rfl | omega
  · rw [validate_time_only credAccessKey utcNow (utcNow - DefaultSkewTime)
        { r with requestTime := some (utcNow - DefaultSkewTime) } hx hs ho ha rfl]
    simp only [DefaultSkewTime]
    split_ifs <;> first | rfl | omega
  · rw [validate_time_only credAccessKey utcNow (utcNow + DefaultSkewTime + 1000000000)
        { r with requestTime := some (utcNow + DefaultSkewTime + 1000000000) }
        hx hs ho ha rfl]
    simp only [DefaultSkewTime]
    split_ifs <;> first | rfl | omega
  · rw [validate_time_only credAccessKey utcNow (utcNow - DefaultSkewTime - 1000000000)
        { r with requestTime := some (utcNow - DefaultSkewTime - 1000000000) }
        hx hs ho ha rfl]
    simp only [DefaultSkewTime]
    split_ifs <;> first | rfl | omega

/-- Witness for C5 at a concrete request. -/
theorem skew_boundary_witness :
    storageServerRequestValidate "minioadmin" 0
        { tokenExtract := .ok, signatureValid := true,
          claimAccessKey := "minioadmin", claimSubject := "",
          claimAudience := "q=1", rawQuery := "q=1",
          requestTime := some (0 + DefaultSkewTime) } = none ∧
    storageServerRequestValidate "minioadmin" 0
        { tokenExtract := .ok, signatureValid := true,
          claimAccessKey := "minioadmin", claimSubject := "",
          claimAudience := "q=1", rawQuery := "q=1",
          requestTime := some (0 - DefaultSkewTime) } = none ∧
    storageServerRequestValidate "minioadmin" 0
        { tokenExtract := .ok, signatureValid := true,
          claimAccessKey := "minioadmin", claimSubject := "",
          claimAudience := "q=1", rawQuery := "q=1",
          requestTime := some (0 + DefaultSkewTime + 1000000000) } =
      some .skewedAuthTime ∧
    storageServerRequestValidate "minioadmin" 0
        { tokenExtract := .ok, signatureValid := true,
          claimAccessKey := "minioadmin", claimSubject := "",
          claimAudience := "q=1", rawQuery := "q=1",
          requestTime := some (0 - DefaultSkewTime - 1000000000) } =
      some .skewedAuthTime :=
  skew_boundary "minioadmin" 0
    { tokenExtract := .ok, signatureValid := true,
      claimAccessKey := "minioadmin", claimSubject := "",
      claimAudience := "q=1", rawQuery := "q=1", requestTime := some 0 }
    rfl rfl rfl rfl

/-- Claim C6 counterexample: a request whose signer's key matches neither
the node credential's access key nor its subject fails with
`errAuthentication` (the "unauthenticated" error), not with
`errMalformedAuth` (the "malformed" error) as the claim states. -/
theorem owner_mismatch_not_malformed :
    storageServerRequestValidate "node-cred" 0
        { tokenExtract := .ok, signatureValid := true,
          claimAccessKey := "peer", claimSubject := "peer",
          claimAudience := "q", rawQuery := "q", requestTime := some 0 } =
      some .authentication ∧
    BaseErr.authentication ≠ BaseErr.malformedAuth := by
  refine ⟨?_, by decide⟩
  simp [storageServerRequestValidate]

/-- Claim C6 amended: a signer's-key (owner) mismatch and an audience
mismatch both fail with the "unauthenticated" error
(`errAuthentication`) — as does a failed signature verification — while
a skewed timestamp fails with `errSkewedAuthTime`; the "malformed" error
(`errMalformedAuth`) arises from a failed header token extraction or an
unparsable timestamp, not from a key mismatch. -/
theorem auth_failure_causes_amended (credAccessKey : String) (utcNow t : Int)
    (r : StorageAuthRequest) (hx : r.tokenExtract = .ok) :
    (r.signatureValid = false →
      storageServerRequestValidate credAccessKey utcNow r = some .authentication) ∧
    (r.signatureValid = true → r.claimAccessKey ≠ credAccessKey →
      r.claimSubject ≠ credAccessKey →
      storageServerRequestValidate credAccessKey utcNow r = some .authentication) ∧
    (r.signatureValid = true → r.claimAccessKey = credAccessKey →
      r.claimAudience ≠ r.rawQuery →
      storageServerRequestValidate credAccessKey utcNow r = some .authentication) ∧
    (r.signatureValid = true → r.claimAccessKey = credAccessKey →
      r.claimAudience = r.rawQuery → r.requestTime = none →
      storageServerRequestValidate credAccessKey utcNow r = some .malformedAuth) ∧
    (r.signatureValid = true → r.claimAccessKey = credAccessKey →
      r.claimAudience = r.rawQuery → r.requestTime = some t →
      t - utcNow > DefaultSkewTime →
      storageServerRequestValidate credAccessKey utcNow r = some .skewedAuthTime) ∧
    (storageServerRequestValidate credAccessKey utcNow
        { r with tokenExtract := .errOther } = some .malformedAuth) ∧
    (storageServerRequestValidate credAccessKey utcNow
        { r with tokenExtract := .errNoToken } = some .noAuthToken) := by
  refine ⟨?_, ?_, ?_, ?_, ?_, ?_, ?_⟩
  · intro hs
    simp [storageServerRequestValidate, hx, hs]
  · intro hs hak hsub
    simp [storageServerRequestValidate, hx, hs, hak, hsub]
  · intro hs hak haud
    simp [storageServerRequestValidate, hx, hs, hak, haud]
  · intro hs hak haud htime
    simp [storageServerRequestValidate, hx, hs, hak, haud, htime]
  · intro hs hak haud htime hskew
    have hpos : (0 : Int) < DefaultSkewTime := by norm_num [DefaultSkewTime]
    rw [validate_time_only credAccessKey utcNow t r hx hs hak haud htime]
    rw [if_pos (by split_ifs <;> omega)]
  · simp [storageServerRequestValidate]
  · simp [storageServerRequestValidate]

/-- Witness for the amended C6 at a concrete request (owner mismatch). -/
theorem auth_failure_causes_amended_witness :
    ({ tokenExtract := .ok, signatureValid := true, claimAccessKey := "peer",
       claimSubject := "peer", claimAudience := "q", rawQuery := "q",
       requestTime := some 0 } : StorageAuthRequest).signatureValid = true ∧
    storageServerRequestValidate "node-cred" 0
        { tokenExtract := .ok, signatureValid := true, claimAccessKey := "peer",
          claimSubject := "peer", claimAudience := "q", rawQuery := "q",
          requestTime := some 0 } = some .authentication := by
  have h := auth_failure_causes_amended "node-cred" 0 0
    { tokenExtract := .ok, signatureValid := true, claimAccessKey := "peer",
      claimSubject := "peer", claimAudience := "q", rawQuery := "q",
      requestTime := some 0 } rfl
  exact ⟨rfl, h.2.1 rfl (by decide) (by decide)⟩

/-! ## Disk lookup and identity validation (`IsValid`, `checkID`) -/

instance {ε α : Type} [DecidableEq ε] [DecidableEq α] :
    DecidableEq (Except ε α) := fun a b =>
  match a, b with
  | .error x, .error y =>
      if h : x = y then .isTrue (by rw [h])
      else .isFalse (fun hh => by cases hh; exact h rfl)
  | .ok x, .ok y =>
      if h : x = y then .isTrue (by rw [h])
      else .isFalse (fun hh => by cases hh; exact h rfl)
  | .error x, .ok y => .isFalse (fun hh => by cases hh)
  | .ok x, .error y => .isFalse (fun hh => by cases hh)

/-- A storage collaborator as this file observes it: the result of a live
`GetDiskID()` call (which can itself fail). -/
structure LocalStorage where
  diskIDResult : Except BaseErr String
deriving DecidableEq

/-- What an HTTP handler gate does with a request: let it proceed to the
dispatch, or reject it by writing the given error response. -/
inductive GateOutcome where
  | proceed
  | reject (e : BaseErr)
deriving DecidableEq

/-- Outcome of the identity-validation portion of `IsValid` (after
`IsAuthValid` has passed): an empty disk-id is allowed unconditionally;
otherwise `GetDiskID()` is fetched live — its failure is written as the
response error — and a non-empty mismatch is rejected with
`errDiskStale`. -/
inductive IdentityOutcome where
  | allowed
  | rejected (e : BaseErr)
deriving DecidableEq

/-- The disk-id check inside `storageRESTServer.IsValid`. -/
def isValidIdentity (st : LocalStorage) (diskID : String) : IdentityOutcome :=
  if diskID = "" then .allowed
  else
    match st.diskIDResult with
    | .error e => .rejected e
    | .ok storedDiskID =>
        if diskID ≠ storedDiskID then .rejected .diskStale else .allowed

/-- Embedding of `storageRESTServer.checkID(wantID)`: false when no
storage is attached; an empty wanted id is allowed; otherwise a live
`GetDiskID()` failure is false and the result is the id comparison. -/
def checkID (storage : Option LocalStorage) (wantID : String) : Bool :=
  match storage with
  | none => false
  | some st =>
    if wantID = "" then true
    else
      match st.diskIDResult with
      | .error _ => false
      | .ok storedDiskID => wantID = storedDiskID

/-- The gate of the grid handlers (`DiskInfoHandler`, `StatVolHandler`,
`DeleteVersionHandler`, ...): when `checkID` fails they return
`errDiskNotFound` as the remote error. -/
def diskInfoHandlerGate (storage : Option LocalStorage) (wantID : String) :
    Option BaseErr :=
  if checkID storage wantID then none else some .diskNotFound

/-- Embedding of `storageRESTServer.IsAuthValid`: an unattached storage
slot is rejected with `errDiskNotFound` before
`storageServerRequestValidate` is consulted; otherwise an authentication
failure is rejected with its error. -/
def IsAuthValid (storage : Option LocalStorage) (credAccessKey : String)
    (utcNow : Int) (r : StorageAuthRequest) : GateOutcome :=
  match storage with
  | none => .reject .diskNotFound
  | some _ =>
    match storageServerRequestValidate credAccessKey utcNow r with
    | some e => .reject e
    | none => .proceed

/-- Embedding of `storageRESTServer.IsValid`: `IsAuthValid` first, then
the disk-id identity validation. -/
def IsValid (storage : Option LocalStorage) (credAccessKey : String)
    (utcNow : Int) (r : StorageAuthRequest) (diskID : String) : GateOutcome :=
  match IsAuthValid storage credAccessKey utcNow r with
  | .reject e => .reject e
  | .proceed =>
    match storage with
    | none => .reject .diskNotFound
    | some st =>
      match isValidIdentity st diskID with
      | .rejected e => .reject e
      | .allowed => .proceed

/-- Claim C3 counterexample: `DiskInfoHandler` is an identity-gated
operation, yet a non-empty disk-id differing from the collaborator's
current identity token is rejected there with `errDiskNotFound`, not
with the stale-drive condition. -/
theorem checkID_mismatch_rejects_diskNotFound :
    diskInfoHandlerGate (some ⟨.ok "disk-a"⟩) "disk-b" = some .diskNotFound ∧
    BaseErr.diskNotFound ≠ BaseErr.diskStale := by
  refine ⟨?_, by decide⟩
  simp [diskInfoHandlerGate, checkID]

/-- Claim C3 amended: an empty disk-id passes identity validation
unconditionally on both gates; on the HTTP gate (`IsValid`) a non-empty
mismatching id is rejected with the stale-drive condition, while on the
grid gate (`checkID`, e.g. `DiskInfoHandler`) the same mismatch is
rejected with `errDiskNotFound`; a matching id passes both gates. -/
theorem diskid_validation_amended (st : LocalStorage) (storedDiskID wantID : String)
    (hst : st.diskIDResult = .ok storedDiskID) :
    (isValidIdentity st "" = .allowed) ∧
    (wantID ≠ "" → wantID ≠ storedDiskID →
      isValidIdentity st wantID = .rejected .diskStale) ∧
    (isValidIdentity st storedDiskID = .allowed) ∧
    (checkID (some st) "" = true) ∧
    (wantID ≠ "" → wantID ≠ storedDiskID →
      diskInfoHandlerGate (some st) wantID = some .diskNotFound) ∧
    (checkID (some st) storedDiskID = true) := by
  refine ⟨?_, ?_, ?_, ?_, ?_, ?_⟩
  · simp [isValidIdentity]
  · intro hne hmis
    simp [isValidIdentity, hne, hst, hmis]
  · by_cases hsd : storedDiskID = ""
    · simp [isValidIdentity, hsd]
    · simp [isValidIdentity, hsd, hst]
  · simp [checkID]
  · intro hne hmis
    simp [diskInfoHandlerGate, checkID, hne, hst, hmis]
  · by_cases hsd : storedDiskID = ""
    · simp [checkID, hsd]
    · simp [checkID, hsd, hst]

/-- Witness for the amended C3 at a concrete storage and ids. -/
theorem diskid_validation_amended_witness :
    (isValidIdentity ⟨.ok "fmt-1"⟩ "" = .allowed) ∧
    ("fmt-2" ≠ "" → "fmt-2" ≠ "fmt-1" →
      isValidIdentity ⟨.ok "fmt-1"⟩ "fmt-2" = .rejected .diskStale) ∧
    (isValidIdentity ⟨.ok "fmt-1"⟩ "fmt-1" = .allowed) ∧
    (checkID (some ⟨.ok "fmt-1"⟩) "" = true) ∧
    ("fmt-2" ≠ "" → "fmt-2" ≠ "fmt-1" →
      diskInfoHandlerGate (some ⟨.ok "fmt-1"⟩) "fmt-2" = some .diskNotFound) ∧
    (checkID (some ⟨.ok "fmt-1"⟩) "fmt-1" = true) :=
  diskid_validation_amended ⟨.ok "fmt-1"⟩ "fmt-1" "fmt-2" rfl

/-- Claim C10: with no storage collaborator attached at the server's
slot, every gate rejects with `errDiskNotFound` regardless of the
request's credentials, timestamp, or disk-id parameter — in `IsAuthValid`
the check precedes `storageServerRequestValidate`, and in `checkID` the
nil check precedes the id comparison. -/
theorem absent_disk_rejected_first (credAccessKey : String) (utcNow : Int)
    (r : StorageAuthRequest) (diskID wantID : String) :
    IsAuthValid none credAccessKey utcNow r = .reject .diskNotFound ∧
    IsValid none credAccessKey utcNow r diskID = .reject .diskNotFound ∧
    checkID none wantID = false ∧
    diskInfoHandlerGate none wantID = some .diskNotFound :=
  ⟨rfl, rfl, rfl, rfl⟩

/-! ## Bootstrap fatal-error policy (`checkDiskFatalErrs`) and retry loop -/

/-- Modelled from the spec: the helper `countErrs`, which is defined
outside this file, counts how many of a batch's attachment failures carry
the given classified condition ("every failure carries the identical
classified condition"). -/
def countErrs (errs : List BaseErr) (err : BaseErr) : Nat :=
  errs.count err

/-- Embedding of `checkDiskFatalErrs(errs)`: a common error is returned
when all errors are the same recognized condition — note the Go code maps
an all-`errFileAccessDenied` batch to `errDiskAccessDenied` — otherwise
nil. -/
def checkDiskFatalErrs (errs : List BaseErr) : Option BaseErr :=
  if countErrs errs .unsupportedDisk = errs.length then some .unsupportedDisk
  else if countErrs errs .diskAccessDenied = errs.length then some .diskAccessDenied
  else if countErrs errs .fileAccessDenied = errs.length then some .diskAccessDenied
  else if countErrs errs .diskNotDir = errs.length then some .diskNotDir
  else if countErrs errs .faultyDisk = errs.length then some .faultyDisk
  else if countErrs errs .xlBackend = errs.length then some .xlBackend
  else none

/-- The conditions `checkDiskFatalErrs` recognizes as systemic. -/
def fatalConditions : List BaseErr :=
  [.unsupportedDisk, .diskAccessDenied, .fileAccessDenied, .diskNotDir,
   .faultyDisk, .xlBackend]

/-- The bootstrap retry task of `registerStorageRESTHandlers`: when the
initial `createStorage` fails non-fatally, a background goroutine loops
forever, each iteration sleeping 3 seconds and then attempting
`createStorage` again, returning on the first success.  `outcomes` lists
the successive attempt results; the value is the elapsed seconds when the
storage is finally created and published (none if no listed attempt
succeeds). -/
def retryCreateStorage : List Bool → Option Nat
  | [] => none
  | ok :: rest =>
      if ok then some 3 else (retryCreateStorage rest).map (fun t => t + 3)

theorem countErrs_eq_length_iff (errs : List BaseErr) (e : BaseErr) :
    countErrs errs e = errs.length ↔ ∀ x ∈ errs, x = e := by
  rw [countErrs, List.count_eq_length]
  constructor
  · intro h x hx
    exact (h x hx).symm
  · intro h x hx
    exact (h x hx).symm

/-- Claim C7: `checkDiskFatalErrs` returns a systemic fatal condition if
and only if every error in the batch is the identical recognized
condition; with two or more distinct conditions, or a common condition
outside the recognized set, it returns none and each failing disk is
retried on a fixed 3-second interval until attachment succeeds. -/
theorem checkDiskFatalErrs_fatal_iff (errs : List BaseErr) (k : Nat)
    (later : List Bool) :
    (checkDiskFatalErrs errs ≠ none ↔
      ∃ e ∈ fatalConditions, ∀ x ∈ errs, x = e) ∧
    retryCreateStorage (List.replicate k false ++ true :: later) =
      some (3 * (k + 1)) := by
  constructor
  · unfold checkDiskFatalErrs
    split_ifs with h1 h2 h3 h4 h5 h6
    · simp only [ne_eq, reduceCtorEq, not_false_eq_true, true_iff]
      exact ⟨.unsupportedDisk, by simp [fatalConditions],
        (countErrs_eq_length_iff errs _).mp h1⟩
    · simp only [ne_eq, reduceCtorEq, not_false_eq_true, true_iff]
      exact ⟨.diskAccessDenied, by simp [fatalConditions],
        (countErrs_eq_length_iff errs _).mp h2⟩
    · simp only [ne_eq, reduceCtorEq, not_false_eq_true, true_iff]
      exact ⟨.fileAccessDenied, by simp [fatalConditions],
        (countErrs_eq_length_iff errs _).mp h3⟩
    · simp only [ne_eq, reduceCtorEq, not_false_eq_true, true_iff]
      exact ⟨.diskNotDir, by simp [fatalConditions],
        (countErrs_eq_length_iff errs _).mp h4⟩
    · simp only [ne_eq, reduceCtorEq, not_false_eq_true, true_iff]
      exact ⟨.faultyDisk, by simp [fatalConditions],
        (countErrs_eq_length_iff errs _).mp h5⟩
    · simp only [ne_eq, reduceCtorEq, not_false_eq_true, true_iff]
      exact ⟨.xlBackend, by simp [fatalConditions],
        (countErrs_eq_length_iff errs _).mp h6⟩
    · simp only [ne_eq, not_true_eq_false, false_iff, not_exists]
      rintro e ⟨he, hall⟩
      simp only [fatalConditions, List.mem_cons, List.mem_singleton,
        List.not_mem_nil, or_false] at he
      rcases he with rfl | rfl | rfl | rfl | rfl | rfl
      · exact h1 ((countErrs_eq_length_iff errs _).mpr hall)
      · exact h2 ((countErrs_eq_length_iff errs _).mpr hall)
      · exact h3 ((countErrs_eq_length_iff errs _).mpr hall)
      · exact h4 ((countErrs_eq_length_iff errs _).mpr hall)
      · exact h5 ((countErrs_eq_length_iff errs _).mpr hall)
      · exact h6 ((countErrs_eq_length_iff errs _).mpr hall)
  · induction k with
    | zero => simp [retryCreateStorage]
    | succ n ih =>
        rw [List.replicate_succ, List.cons_append]
        rw [show retryCreateStorage
              (false :: (List.replicate n false ++ true :: later)) =
            (retryCreateStorage (List.replicate n false ++ true :: later)).map
              (fun t => t + 3) by simp [retryCreateStorage]]
        rw [ih]
        have h3 : 3 * (n + 1) + 3 = 3 * (n + 1 + 1) := by ring
        simp [h3]

/-! ## Keep-alive completion: exactly one terminal frame (`done`,
`CloseWithError`) -/

/-- One tagged unit written to the transport by a keep-alive session's
connection goroutine: a heartbeat filler byte, the success terminator
byte, or the error terminator byte followed by the message text. -/
inductive WireEvent where
  | heartbeat
  | terminalOK
  | terminalErr (msg : List Nat)
deriving DecidableEq

/-- The terminal frame the goroutine writes on receiving the completion
error: byte 0 for nil, byte 1 plus the error text otherwise. -/
def terminalEvent : Option (List Nat) → WireEvent
  | none => .terminalOK
  | some msg => .terminalErr msg

def isTerminal : WireEvent → Bool
  | .heartbeat => false
  | .terminalOK => true
  | .terminalErr _ => true

/-- The state a `keepHTTPResponseAlive` / `keepHTTPReqResponseAlive`
session's completion closure observes: `doneOpen` models `doneCh ≠ nil`
in the closure, and `wire` is what the connection goroutine has written
so far (heartbeats, and eventually one terminal frame). -/
structure KeepAliveState where
  doneOpen : Bool
  wire : List WireEvent
deriving DecidableEq

/-- One call of the completion function returned by
`keepHTTPResponseAlive` / `keepHTTPReqResponseAlive`: when `doneCh` is
nil it returns immediately without writing; otherwise it hands the error
to the goroutine, which writes the single terminal frame and closes the
channel, and the closure then sets `doneCh = nil`. -/
def keepAliveDone (st : KeepAliveState) (err : Option (List Nat)) :
    KeepAliveState :=
  if st.doneOpen then
    { doneOpen := false, wire := st.wire ++ [terminalEvent err] }
  else st

/-- The state `httpStreamResponse.CloseWithError` observes: `doneOpen`
models `h.done ≠ nil`, `err` is the retained `h.err`, and `wire` is what
the `streamHTTPResponse` goroutine has written. -/
structure HTTPStreamCloseState where
  doneOpen : Bool
  err : Option (List Nat)
  wire : List WireEvent
deriving DecidableEq

/-- One call of `httpStreamResponse.CloseWithError(err)`: a no-op when
`h.done` is already nil; otherwise the goroutine writes the terminal
frame for this (first) error, the rendezvous completes, `h.err` is set,
and `h.done` becomes nil. -/
def CloseWithError (h : HTTPStreamCloseState) (err : Option (List Nat)) :
    HTTPStreamCloseState :=
  if h.doneOpen then
    { doneOpen := false, err := err, wire := h.wire ++ [terminalEvent err] }
  else h

theorem foldl_keepAliveDone_closed (cs : List (Option (List Nat)))
    (w : List WireEvent) :
    cs.foldl keepAliveDone { doneOpen := false, wire := w } =
      { doneOpen := false, wire := w } := by
  induction cs with
  | nil => rfl
  | cons c cs ih => simpa [keepAliveDone] using ih

theorem foldl_CloseWithError_closed (cs : List (Option (List Nat)))
    (e : Option (List Nat)) (w : List WireEvent) :
    cs.foldl CloseWithError { doneOpen := false, err := e, wire := w } =
      { doneOpen := false, err := e, wire := w } := by
  induction cs with
  | nil => rfl
  | cons c cs ih => simpa [CloseWithError] using ih

theorem isTerminal_terminalEvent (e : Option (List Nat)) :
    isTerminal (terminalEvent e) = true := by
  cases e <;> rfl

/-- Claim C8: for any keep-alive session whose transport so far carries
only heartbeats, calling the completion function any number of times (a
first call followed by any list of further calls) writes exactly one
terminal frame; the final state equals the state right after the first
call, so every later call writes nothing; and in the block-streaming
variant only the first supplied error is retained and written. -/
theorem completion_exactly_once (pre : List WireEvent)
    (c0 : Option (List Nat)) (cs : List (Option (List Nat)))
    (hpre : ∀ ev ∈ pre, ev = WireEvent.heartbeat) :
    ((c0 :: cs).foldl keepAliveDone { doneOpen := true, wire := pre } =
      { doneOpen := false, wire := pre ++ [terminalEvent c0] }) ∧
    (((c0 :: cs).foldl keepAliveDone
        { doneOpen := true, wire := pre }).wire.countP isTerminal = 1) ∧
    ((c0 :: cs).foldl CloseWithError
        { doneOpen := true, err := none, wire := pre } =
      { doneOpen := false, err := c0, wire := pre ++ [terminalEvent c0] }) := by
  have hka : (c0 :: cs).foldl keepAliveDone { doneOpen := true, wire := pre } =
      { doneOpen := false, wire := pre ++ [terminalEvent c0] } := by
    rw [List.foldl_cons,
      show keepAliveDone { doneOpen := true, wire := pre } c0 =
        { doneOpen := false, wire := pre ++ [terminalEvent c0] } from rfl]
    exact foldl_keepAliveDone_closed cs _
  have hpre0 : pre.countP isTerminal = 0 := by
    rw [List.countP_eq_zero]
    intro ev hev
    rw [hpre ev hev]
    decide
  refine ⟨hka, ?_, ?_⟩
  · rw [hka]
    simp [List.countP_append, hpre0, isTerminal_terminalEvent, List.countP_cons]
  · rw [List.foldl_cons,
      show CloseWithError { doneOpen := true, err := none, wire := pre } c0 =
        { doneOpen := false, err := c0, wire := pre ++ [terminalEvent c0] } from rfl]
    exact foldl_CloseWithError_closed cs _ _

/-- Witness for C8 at a concrete session: one heartbeat already on the
wire, a first close with an error, then two redundant closes. -/
theorem completion_exactly_once_witness :
    (([some [70], none, some [71]] : List (Option (List Nat))).foldl
        keepAliveDone { doneOpen := true, wire := [WireEvent.heartbeat] } =
      { doneOpen := false,
        wire := [WireEvent.heartbeat] ++ [terminalEvent (some [70])] }) ∧
    ((([some [70], none, some [71]] : List (Option (List Nat))).foldl
        keepAliveDone
        { doneOpen := true, wire := [WireEvent.heartbeat] }).wire.countP
          isTerminal = 1) ∧
    (([some [70], none, some [71]] : List (Option (List Nat))).foldl
        CloseWithError
        { doneOpen := true, err := none, wire := [WireEvent.heartbeat] } =
      { doneOpen := false, err := some [70],
        wire := [WireEvent.heartbeat] ++ [terminalEvent (some [70])] }) :=
  completion_exactly_once [WireEvent.heartbeat] (some [70]) [none, some [71]]
    (by decide)

end StorageRest
